import Mathlib

/-!
Shallow embedding of the chat/caching core of `app/services/chat_service.py`
(classes `ChatService` and `AgentService`), together with the parts of its
collaborators (`chat_cache`, `ChatHistory`, the pydantic models) that the
service calls.  Python dictionaries keyed by strings are embedded as
insertion-ordered association lists; the async generator calls are embedded
as functions returning `Except String` (an exception propagates as `.error`).
-/

namespace ChatBot

/-- Modelled from the spec: a Conversation Turn's role is `user` or
`assistant` (`ChatHistory` / the message models are not in `src/`). -/
inductive Role where
  | user
  | assistant
deriving DecidableEq, Repr

/-- Modelled from the spec: Conversation Turn `{role, content}`. -/
structure ChatMessage where
  role : Role
  content : String
deriving DecidableEq, Repr

/-- Modelled from the spec: `ChatHistory.add_user_message` appends a user turn. -/
def add_user_message (h : List ChatMessage) (text : String) : List ChatMessage :=
  h ++ [⟨Role.user, text⟩]

/-- Modelled from the spec: `ChatHistory.add_ai_message` appends an assistant turn. -/
def add_ai_message (h : List ChatMessage) (text : String) : List ChatMessage :=
  h ++ [⟨Role.assistant, text⟩]

/-- `Source` model: `{title: optional string, url: optional string, content: string}`;
`title` and `url` default to null when not passed. -/
structure Source where
  title : Option String := none
  url : Option String := none
  content : String
deriving DecidableEq, Repr

/-- Document metadata as accessed by `_extract_sources`
(`metadata.get("title"/"url", None)`). -/
structure Metadata where
  title : Option String
  url : Option String
deriving DecidableEq, Repr

/-- A retrieved document: `doc.metadata` may be `None`, `doc.page_content` is text. -/
structure Doc where
  metadata : Option Metadata
  page_content : String
deriving DecidableEq, Repr

/-- The first component of an intermediate step (`step[0].tool`). -/
structure AgentAction where
  tool : String
deriving DecidableEq, Repr

/-- The second component of an intermediate step: either a plain-text result or
a dict-shaped one whose `"documents"` key may be absent
(`step[1].get("documents", [])`). -/
inductive Observation where
  | text (s : String)
  | dict (documents : Option (List Doc))
deriving DecidableEq, Repr

/-- An intermediate step: `len(step) > 1` distinguishes an action-only record
from an (action, observation) pair. -/
inductive Step where
  | single (a : AgentAction)
  | pair (a : AgentAction) (o : Observation)
deriving DecidableEq, Repr

/-- A raw entry of a response's top-level `sources` list as consumed by
`ChatService._format_sources`: a dict with optional `title`/`url`/`content`
keys, or any non-dict value (embedded via its `str(...)` form). -/
inductive RawSource where
  | dict (title url content : Option String)
  | prim (s : String)
deriving DecidableEq, Repr

/-- Result of one generator invocation, the `{output, sources?,
intermediate_steps?}` boundary of §6: `output` is mandatory, the rest optional. -/
structure AgentResult where
  output : String
  sources : Option (List RawSource)
  intermediate_steps : Option (List Step)
deriving DecidableEq, Repr

/-- A generator (`agent_manager.rag_agent.ainvoke` / `standard_agent.ainvoke`):
given the query and the history it either returns a result or raises. -/
abbrev Agent : Type := String → List ChatMessage → Except String AgentResult

/-- Association-list embedding of a Python string-keyed dict: first-match lookup. -/
def hlookup {α : Type} : List (String × α) → String → Option α
  | [], _ => none
  | (k, v) :: rest, sid => if k = sid then some v else hlookup rest sid

/-- Dict assignment: replace the value at the key in place, or append the new
key at the end (Python dicts preserve insertion order). -/
def hupdate {α : Type} : List (String × α) → String → α → List (String × α)
  | [], sid, v => [(sid, v)]
  | (k, w) :: rest, sid, v =>
      if k = sid then (sid, v) :: rest else (k, w) :: hupdate rest sid v

/-- `del d[key]`: remove the entry with the given key. -/
def herase {α : Type} (hs : List (String × α)) (sid : String) : List (String × α) :=
  hs.filter (fun p => p.1 != sid)

/-- `ChatService._extract_sources` inner mapping of a document to a `Source`:
`metadata = doc.metadata or {}`, then `title`/`url` with `None` defaults. -/
def docSource (doc : Doc) : Source :=
  let metadata := doc.metadata.getD ⟨none, none⟩
  ⟨metadata.title, metadata.url, doc.page_content⟩

/-- `AgentService._extract_sources`: fold over steps; a step contributes its
documents as sources when it is a pair, its tool is `search_msquared_docs`,
and its observation is a dict. -/
def extract_sources (steps : List Step) : List Source :=
  steps.foldl
    (fun sources step =>
      match step with
      | Step.pair a (Observation.dict documents) =>
          if a.tool = "search_msquared_docs" then
            sources ++ (documents.getD []).map docSource
          else sources
      | _ => sources)
    []

/-- Spec-side per-step citation contribution (§4.5 wording): a step whose tool
identifier matches the recognized retrieval-tool name and whose result is a
structured payload yields one `Source` per document, mapping the metadata's
`title`/`url` (absent → null) and the document body; every other step
contributes nothing. -/
def stepSources : Step → List Source
  | Step.pair a (Observation.dict documents) =>
      if a.tool = "search_msquared_docs" then
        (documents.getD []).map (fun doc =>
          ⟨(doc.metadata.getD ⟨none, none⟩).title,
           (doc.metadata.getD ⟨none, none⟩).url,
           doc.page_content⟩)
      else []
  | _ => []

/-- Modelled from the spec: the Cache Fingerprint is a deterministic digest of
`(query, history, session_id)` such that two requests produce the same
fingerprint iff all three inputs are identical (`cache_service.py` is not in
`src/`); the digest is embedded as the triple itself, which has exactly that
equality. -/
structure Fingerprint where
  query : String
  history : List ChatMessage
  session_id : String
deriving DecidableEq, Repr

/-- Modelled from the spec: `chat_cache.generate_query_hash(query, history,
session_id)` derives the fingerprint from the three inputs. -/
def generate_query_hash (query : String) (history : List ChatMessage)
    (session_id : String) : Fingerprint :=
  ⟨query, history, session_id⟩

/-- Modelled from the spec: the Cached Payload stored on a miss,
`{augmented_output (rag_response), plain_output (no_rag_response), sources}`
(the timestamp is irrelevant to the claims and not modelled). -/
structure CachedPayload where
  rag_response : String
  no_rag_response : String
  sources : List Source
deriving DecidableEq, Repr

/-- The response cache: fingerprint → payload mapping. -/
abbrev Cache : Type := List (Fingerprint × CachedPayload)

/-- First-match lookup in the cache. -/
def cacheLookup : Cache → Fingerprint → Option CachedPayload
  | [], _ => none
  | (k, v) :: rest, fp => if k = fp then some v else cacheLookup rest fp

/-- Modelled from the spec: `chat_cache.get_cached_response(query_hash)`
returns the pair `(cached_response-or-None, hit-flag)`. -/
def get_cached_response (c : Cache) (fp : Fingerprint) :
    Option CachedPayload × Bool :=
  (cacheLookup c fp, (cacheLookup c fp).isSome)

/-- Modelled from the spec: `chat_cache.cache_response` inserts the payload
under the fingerprint (on the miss path the fingerprint is absent, so plain
insertion is the whole behavior the claims exercise). -/
def cache_store (c : Cache) (fp : Fingerprint) (p : CachedPayload) : Cache :=
  c ++ [(fp, p)]

/-- The session map owned by `ChatService` (`self.chat_histories`). -/
abbrev ChatHistories : Type := List (String × List ChatMessage)

/-- Process-wide state touched by `ChatService.chat`: the per-session
histories and the global response cache. -/
structure ServiceState where
  chat_histories : ChatHistories
  cache : Cache
deriving DecidableEq, Repr

/-- Incoming `Message` model: user text plus session id. -/
structure Message where
  message : String
  session_id : String
deriving DecidableEq, Repr

/-- `ResponseContent` model: the envelope fields populated by the service.
`output` and `no_rag_output` are optional because `AgentService.process_query`
passes `None` for paths it did not run. -/
structure ResponseContent where
  input : String
  history : List ChatMessage
  output : Option String
  no_rag_output : Option String
  intermediate_steps : List Step
deriving DecidableEq, Repr

/-- `ResponseMessage` model: the response content plus the source list. -/
structure ResponseMessage where
  response : ResponseContent
  sources : List Source
deriving DecidableEq, Repr

/-- `ChatService._format_sources`: map the response's top-level `sources`
list (default `[]`); dict entries keep their fields with `""` defaults,
anything else becomes a content-only source from its string form. -/
def formatSource : RawSource → Source
  | RawSource.dict t u c => ⟨some (t.getD ""), some (u.getD ""), c.getD ""⟩
  | RawSource.prim s => ⟨none, none, s⟩

/-- `ChatService._format_sources` over a generator response. -/
def format_sources (resp : AgentResult) : List Source :=
  (resp.sources.getD []).map formatSource

/-- `ChatService._format_history`: each turn is rendered as its
`{role, content}` dict (`msg.dict()`). -/
def format_history (msgs : List ChatMessage) : List ChatMessage :=
  msgs.map (fun m => ⟨m.role, m.content⟩)

/-- `if session_id not in self.chat_histories: self.chat_histories[session_id]
= ChatHistory()` — ensure the session exists, creating an empty history at the
end of the dict when absent. -/
def ensureSession (hs : ChatHistories) (sid : String) : ChatHistories :=
  if (hlookup hs sid).isSome then hs else hs ++ [(sid, [])]

/-- The history currently stored for a session (empty when the session does
not exist yet). -/
def sessionHistory (st : ServiceState) (sid : String) : List ChatMessage :=
  (hlookup st.chat_histories sid).getD []

/-- `ChatService.chat`: resolve/create the session, derive the fingerprint
from the pre-turn history, consult the cache; on hit append the user turn and
the cached augmented output and return the cached payload with empty steps; on
miss append the user turn, invoke the RAG generator then the plain generator
(an exception from either propagates, leaving the appended user turn in
place), format sources from the RAG response, append the RAG output as the
assistant turn, store the payload under the fingerprint and return the fresh
envelope. -/
def chat (rag std : Agent) (st : ServiceState) (data : Message) :
    ServiceState × Except String ResponseMessage :=
  let user_input := data.message
  let session_id := data.session_id
  let chat_histories := ensureSession st.chat_histories session_id
  let chat_history := (hlookup chat_histories session_id).getD []
  let query_hash := generate_query_hash user_input chat_history session_id
  match get_cached_response st.cache query_hash with
  | (some cached, _) =>
      let rag_output := cached.rag_response
      let no_rag_output := cached.no_rag_response
      let sources := cached.sources
      let h2 := add_ai_message (add_user_message chat_history user_input) rag_output
      (⟨hupdate chat_histories session_id h2, st.cache⟩,
       Except.ok ⟨⟨user_input, format_history h2, some rag_output,
                   some no_rag_output, []⟩, sources⟩)
  | (none, _) =>
      let h1 := add_user_message chat_history user_input
      match rag user_input h1 with
      | Except.error e => (⟨hupdate chat_histories session_id h1, st.cache⟩, Except.error e)
      | Except.ok rag_response =>
        match std user_input h1 with
        | Except.error e => (⟨hupdate chat_histories session_id h1, st.cache⟩, Except.error e)
        | Except.ok no_rag_response =>
          let sources := format_sources rag_response
          let h2 := add_ai_message h1 rag_response.output
          let payload : CachedPayload :=
            ⟨rag_response.output, no_rag_response.output, sources⟩
          (⟨hupdate chat_histories session_id h2,
            cache_store st.cache query_hash payload⟩,
           Except.ok ⟨⟨user_input, format_history h2, some rag_response.output,
                       some no_rag_response.output,
                       rag_response.intermediate_steps.getD []⟩, sources⟩)

/-- `ChatService.delete_chat`: the `ALL_CHATS` sentinel clears every session
and reports success; otherwise delete the named session when present. -/
def delete_chat (hs : ChatHistories) (session_id : String) : ChatHistories × Bool :=
  if session_id = "ALL_CHATS" then ([], true)
  else if (hlookup hs session_id).isSome then (herase hs session_id, true)
  else (hs, false)

/-- `ChatService.get_chat`: the sentinel returns the whole session map, a
known session returns a one-entry map, anything else returns `None`. -/
def get_chat (hs : ChatHistories) (session_id : String) : Option ChatHistories :=
  if session_id = "ALL_CHATS" then some hs
  else
    match hlookup hs session_id with
    | some h => some [(session_id, h)]
    | none => none

/-- `AgentService.process_query`: run the RAG generator when `use_rag` or
`use_dual_response`, the plain generator when `not use_rag` or
`use_dual_response`; the primary output follows `use_rag`, the secondary is
the plain output only in dual RAG mode; sources come from the RAG
intermediate steps. -/
def process_query (rag std : Agent) (query : String)
    (history : Option (List ChatMessage)) (use_rag use_dual_response : Bool) :
    Except String ResponseMessage :=
  let history := history.getD []
  match (if use_rag || use_dual_response
         then (rag query history).map Option.some
         else Except.ok none) with
  | Except.error e => Except.error e
  | Except.ok ragResult =>
    let rag_output := ragResult.map (fun r => r.output)
    let rag_steps := ragResult.map (fun r => r.intermediate_steps.getD [])
    let sources :=
      match rag_steps with
      | some steps => extract_sources steps
      | none => []
    match (if !use_rag || use_dual_response
           then (std query history).map Option.some
           else Except.ok none) with
    | Except.error e => Except.error e
    | Except.ok nonRagResult =>
      let non_rag_output := nonRagResult.map (fun r => r.output)
      let primary_output := if use_rag then rag_output else non_rag_output
      let secondary_output :=
        if use_rag && use_dual_response then non_rag_output else none
      Except.ok ⟨⟨query, history, primary_output, secondary_output,
                  if use_rag then rag_steps.getD [] else []⟩, sources⟩

/-! ## Concrete fixtures used to instantiate the theorems -/

/-- A retrieval step of the recognized tool returning one document. -/
def stepT : Step :=
  Step.pair ⟨"search_msquared_docs"⟩
    (Observation.dict (some [⟨some ⟨some "DT", some "DU"⟩, "body"⟩]))

/-- A concrete augmented-generator result. -/
def ragTRes : AgentResult :=
  ⟨"ragout",
   some [RawSource.dict (some "T") none (some "C"), RawSource.prim "p"],
   some [stepT]⟩

/-- A concrete plain-generator result. -/
def stdTRes : AgentResult := ⟨"stdout", none, none⟩

/-- Generator fixtures: constant success, alternative success, failure, and a
variant that only answers on a non-empty history. -/
def ragT : Agent := fun _ _ => Except.ok ragTRes

def stdT : Agent := fun _ _ => Except.ok stdTRes

def ragT2 : Agent := fun _ _ => Except.ok ⟨"ragout2", none, none⟩

def stdT2 : Agent := fun _ _ => Except.ok ⟨"stdout2", none, none⟩

def ragE : Agent := fun _ _ => Except.error "ragfail"

def stdT3 : Agent := fun _ h =>
  if h = [] then Except.error "unused" else Except.ok stdTRes

/-- A cached payload and a state whose cache already holds it for query `q`
in session `s` with empty prior history. -/
def cachedT : CachedPayload := ⟨"A", "P", [⟨some "t", some "u", "c"⟩]⟩

def stHit : ServiceState := ⟨[("s", [])], [(⟨"q", [], "s"⟩, cachedT)]⟩

/-- The empty starting state: no sessions, empty cache. -/
def stMiss : ServiceState := ⟨[], []⟩

/-- A one-session map used by the deletion/lookup witnesses. -/
def hs1 : ChatHistories := [("s1", [⟨Role.user, "hi"⟩])]

/-- The response `chat` produces from `stMiss` with `ragT`/`stdT`. -/
def rmT : ResponseMessage :=
  ⟨⟨"q", format_history (add_ai_message (add_user_message [] "q") ragTRes.output),
    some ragTRes.output, some stdTRes.output, ragTRes.intermediate_steps.getD []⟩,
   format_sources ragTRes⟩

/-! ## Helper lemmas -/

theorem hlookup_hupdate_self {α : Type} (hs : List (String × α)) (sid : String)
    (v : α) : hlookup (hupdate hs sid v) sid = some v := by
  induction hs with
  | nil => simp [hupdate, hlookup]
  | cons p rest ih =>
    obtain ⟨k, w⟩ := p
    by_cases h : k = sid <;> simp [hupdate, hlookup, h, ih]

theorem hlookup_ensureSession (hs : ChatHistories) (sid : String) :
    hlookup (ensureSession hs sid) sid = some ((hlookup hs sid).getD []) := by
  unfold ensureSession
  cases h : hlookup hs sid with
  | some v => simp [h]
  | none =>
    simp only [h, Option.isSome_none, Bool.false_eq_true, if_false, Option.getD_none]
    induction hs with
    | nil => simp [hlookup]
    | cons p rest ih =>
      obtain ⟨k, w⟩ := p
      by_cases hk : k = sid
      · simp [hlookup, hk] at h
      · simp [hlookup, hk] at h ⊢
        exact ih h

theorem hlookup_herase {α : Type} (hs : List (String × α)) (sid : String) :
    hlookup (herase hs sid) sid = none := by
  induction hs with
  | nil => simp [herase, hlookup]
  | cons p rest ih =>
    obtain ⟨k, w⟩ := p
    by_cases h : k = sid
    · simpa [herase, h] using ih
    · simpa [herase, hlookup, h] using ih

theorem extract_sources_foldl (steps : List Step) (acc : List Source) :
    steps.foldl
      (fun sources step =>
        match step with
        | Step.pair a (Observation.dict documents) =>
            if a.tool = "search_msquared_docs" then
              sources ++ (documents.getD []).map docSource
            else sources
        | _ => sources)
      acc
    = acc ++ (steps.map stepSources).flatten := by
  induction steps generalizing acc with
  | nil => simp
  | cons s rest ih =>
    cases s with
    | single a => simp [List.foldl, stepSources, ih]
    | pair a o =>
      cases o with
      | text t => simp [List.foldl, stepSources, ih]
      | dict docs =>
        by_cases h : a.tool = "search_msquared_docs" <;>
          simp [List.foldl, stepSources, h, ih, docSource]

theorem chat_hit_eq (rag std : Agent) (st : ServiceState) (data : Message)
    (cached : CachedPayload)
    (hhit : cacheLookup st.cache
        (generate_query_hash data.message (sessionHistory st data.session_id)
          data.session_id) = some cached) :
    chat rag std st data =
      (⟨hupdate (ensureSession st.chat_histories data.session_id) data.session_id
          (add_ai_message (add_user_message (sessionHistory st data.session_id)
            data.message) cached.rag_response), st.cache⟩,
       Except.ok ⟨⟨data.message,
         format_history (add_ai_message (add_user_message
           (sessionHistory st data.session_id) data.message) cached.rag_response),
         some cached.rag_response, some cached.no_rag_response, []⟩,
         cached.sources⟩) := by
  unfold sessionHistory at hhit
  unfold chat
  simp only [hlookup_ensureSession, Option.getD_some, get_cached_response, hhit]
  unfold sessionHistory
  rfl

theorem chat_miss_rag_error (rag std : Agent) (st : ServiceState) (data : Message)
    (e : String)
    (hmiss : cacheLookup st.cache
        (generate_query_hash data.message (sessionHistory st data.session_id)
          data.session_id) = none)
    (he : rag data.message
        (add_user_message (sessionHistory st data.session_id) data.message) =
      Except.error e) :
    chat rag std st data =
      (⟨hupdate (ensureSession st.chat_histories data.session_id) data.session_id
          (add_user_message (sessionHistory st data.session_id) data.message),
        st.cache⟩,
       Except.error e) := by
  unfold sessionHistory at hmiss he
  unfold chat
  simp only [hlookup_ensureSession, Option.getD_some, get_cached_response, hmiss, he]
  unfold sessionHistory
  rfl

theorem chat_miss_std_error (rag std : Agent) (st : ServiceState) (data : Message)
    (r : AgentResult) (e : String)
    (hmiss : cacheLookup st.cache
        (generate_query_hash data.message (sessionHistory st data.session_id)
          data.session_id) = none)
    (hr : rag data.message
        (add_user_message (sessionHistory st data.session_id) data.message) =
      Except.ok r)
    (he : std data.message
        (add_user_message (sessionHistory st data.session_id) data.message) =
      Except.error e) :
    chat rag std st data =
      (⟨hupdate (ensureSession st.chat_histories data.session_id) data.session_id
          (add_user_message (sessionHistory st data.session_id) data.message),
        st.cache⟩,
       Except.error e) := by
  unfold sessionHistory at hmiss hr he
  unfold chat
  simp only [hlookup_ensureSession, Option.getD_some, get_cached_response,
    hmiss, hr, he]
  unfold sessionHistory
  rfl

theorem chat_miss_ok (rag std : Agent) (st : ServiceState) (data : Message)
    (r s : AgentResult)
    (hmiss : cacheLookup st.cache
        (generate_query_hash data.message (sessionHistory st data.session_id)
          data.session_id) = none)
    (hr : rag data.message
        (add_user_message (sessionHistory st data.session_id) data.message) =
      Except.ok r)
    (hs : std data.message
        (add_user_message (sessionHistory st data.session_id) data.message) =
      Except.ok s) :
    chat rag std st data =
      (⟨hupdate (ensureSession st.chat_histories data.session_id) data.session_id
          (add_ai_message (add_user_message (sessionHistory st data.session_id)
            data.message) r.output),
        cache_store st.cache
          (generate_query_hash data.message (sessionHistory st data.session_id)
            data.session_id)
          ⟨r.output, s.output, format_sources r⟩⟩,
       Except.ok ⟨⟨data.message,
         format_history (add_ai_message (add_user_message
           (sessionHistory st data.session_id) data.message) r.output),
         some r.output, some s.output, r.intermediate_steps.getD []⟩,
         format_sources r⟩) := by
  unfold sessionHistory at hmiss hr hs
  unfold chat
  simp only [hlookup_ensureSession, Option.getD_some, get_cached_response,
    hmiss, hr, hs]
  unfold sessionHistory
  rfl

/-! ## Claim theorems -/

/-- C1: when the incoming message's fingerprint is in the cache,
`ChatService.chat` invokes neither generator (the result does not depend on
the generators at all), appends the user text and the cached augmented output
to the session history, and returns the cached payload — augmented output,
plain output, sources — with an empty intermediate-steps list. -/
theorem chat_hit_bypasses_generation (rag₁ std₁ rag₂ std₂ : Agent)
    (st : ServiceState) (data : Message) (cached : CachedPayload)
    (hhit : cacheLookup st.cache
        (generate_query_hash data.message (sessionHistory st data.session_id)
          data.session_id) = some cached) :
    chat rag₁ std₁ st data = chat rag₂ std₂ st data ∧
    hlookup (chat rag₁ std₁ st data).1.chat_histories data.session_id =
      some (add_ai_message (add_user_message (sessionHistory st data.session_id)
        data.message) cached.rag_response) ∧
    (chat rag₁ std₁ st data).2 =
      Except.ok ⟨⟨data.message,
        format_history (add_ai_message (add_user_message
          (sessionHistory st data.session_id) data.message) cached.rag_response),
        some cached.rag_response, some cached.no_rag_response, []⟩,
        cached.sources⟩ := by
  refine ⟨?_, ?_, ?_⟩
  · rw [chat_hit_eq rag₁ std₁ st data cached hhit,
      chat_hit_eq rag₂ std₂ st data cached hhit]
  · rw [chat_hit_eq rag₁ std₁ st data cached hhit]
    exact hlookup_hupdate_self _ _ _
  · rw [chat_hit_eq rag₁ std₁ st data cached hhit]

/-- C2: on a cache miss the fresh payload is stored under the fingerprint
derived from the query, the session id, and the history as it was before the
current user and assistant turns were appended — the very fingerprint the
lookup used (the same `generate_query_hash` value appears in the miss
hypothesis and in the stored entry). -/
theorem chat_miss_stores_preturn_fingerprint (rag std : Agent)
    (st : ServiceState) (data : Message) (r s : AgentResult)
    (hmiss : cacheLookup st.cache
        (generate_query_hash data.message (sessionHistory st data.session_id)
          data.session_id) = none)
    (hr : rag data.message
        (add_user_message (sessionHistory st data.session_id) data.message) =
      Except.ok r)
    (hs : std data.message
        (add_user_message (sessionHistory st data.session_id) data.message) =
      Except.ok s) :
    (chat rag std st data).1.cache =
      st.cache ++
        [(generate_query_hash data.message (sessionHistory st data.session_id)
            data.session_id,
          ⟨r.output, s.output, format_sources r⟩)] := by
  rw [chat_miss_ok rag std st data r s hmiss hr hs]
  rfl

/-- C3: on a cache miss, if either generator invocation fails then the error
propagates as the result of `ChatService.chat`, no cache entry is created (the
cache is unchanged), and the session history keeps the already-appended user
turn. -/
theorem chat_failure_no_cache (rag std : Agent) (st : ServiceState)
    (data : Message) (e : String)
    (hmiss : cacheLookup st.cache
        (generate_query_hash data.message (sessionHistory st data.session_id)
          data.session_id) = none)
    (hfail : rag data.message
        (add_user_message (sessionHistory st data.session_id) data.message) =
        Except.error e ∨
      ∃ r, rag data.message
          (add_user_message (sessionHistory st data.session_id) data.message) =
            Except.ok r ∧
        std data.message
          (add_user_message (sessionHistory st data.session_id) data.message) =
          Except.error e) :
    (chat rag std st data).2 = Except.error e ∧
    (chat rag std st data).1.cache = st.cache ∧
    hlookup (chat rag std st data).1.chat_histories data.session_id =
      some (add_user_message (sessionHistory st data.session_id) data.message) := by
  rcases hfail with he | ⟨r, hr, he⟩
  · rw [chat_miss_rag_error rag std st data e hmiss he]
    exact ⟨rfl, rfl, hlookup_hupdate_self _ _ _⟩
  · rw [chat_miss_std_error rag std st data r e hmiss hr he]
    exact ⟨rfl, rfl, hlookup_hupdate_self _ _ _⟩

/-- C4: on a cache miss the user's turn is appended to the session history
before either generator runs, and both generators are invoked with that same
history — the pre-turn history plus the current user turn, with no assistant
turn yet: the result of `ChatService.chat` depends on the generators only
through their values at exactly that query and history. -/
theorem chat_generators_see_user_turn (rag₁ std₁ rag₂ std₂ : Agent)
    (st : ServiceState) (data : Message)
    (hmiss : cacheLookup st.cache
        (generate_query_hash data.message (sessionHistory st data.session_id)
          data.session_id) = none)
    (hrag : rag₁ data.message
        (add_user_message (sessionHistory st data.session_id) data.message) =
      rag₂ data.message
        (add_user_message (sessionHistory st data.session_id) data.message))
    (hstd : std₁ data.message
        (add_user_message (sessionHistory st data.session_id) data.message) =
      std₂ data.message
        (add_user_message (sessionHistory st data.session_id) data.message)) :
    chat rag₁ std₁ st data = chat rag₂ std₂ st data := by
  unfold sessionHistory at hmiss hrag hstd
  unfold chat
  simp only [hlookup_ensureSession, Option.getD_some, get_cached_response,
    hmiss, hrag, hstd]

/-- C5: for every sequence of intermediate steps, `_extract_sources` returns
exactly the concatenation, over the steps, of one `Source` per document of
each step whose tool is the recognized retrieval tool and whose result is a
dict payload — each document mapped to its metadata title and url (absent →
null) and its body — while every other step contributes nothing and causes no
error. -/
theorem extract_sources_citation_filtering (steps : List Step) :
    extract_sources steps = (steps.map stepSources).flatten := by
  unfold extract_sources
  exact extract_sources_foldl steps []

/-- C6: `AgentService.process_query` invokes exactly the generators its mode
requires: in augmented-only mode (`use_rag`, no dual) the result does not
depend on the plain generator and the envelope carries the augmented output;
in plain-only mode the result does not depend on the augmented generator and
the envelope carries the plain output; in dual mode the envelope carries the
augmented output as primary and the plain output as secondary. -/
theorem process_query_modes (rag₁ std₁ rag₂ std₂ : Agent) (query : String)
    (historyOpt : Option (List ChatMessage)) :
    (process_query rag₁ std₁ query historyOpt true false =
       process_query rag₁ std₂ query historyOpt true false) ∧
    (process_query rag₁ std₁ query historyOpt false false =
       process_query rag₂ std₁ query historyOpt false false) ∧
    (∀ r, rag₁ query (historyOpt.getD []) = Except.ok r →
       process_query rag₁ std₁ query historyOpt true false =
         Except.ok ⟨⟨query, historyOpt.getD [], some r.output, none,
           r.intermediate_steps.getD []⟩,
           extract_sources (r.intermediate_steps.getD [])⟩) ∧
    (∀ s, std₁ query (historyOpt.getD []) = Except.ok s →
       process_query rag₁ std₁ query historyOpt false false =
         Except.ok ⟨⟨query, historyOpt.getD [], some s.output, none, []⟩, []⟩) ∧
    (∀ r s, rag₁ query (historyOpt.getD []) = Except.ok r →
       std₁ query (historyOpt.getD []) = Except.ok s →
       process_query rag₁ std₁ query historyOpt true true =
         Except.ok ⟨⟨query, historyOpt.getD [], some r.output, some s.output,
           r.intermediate_steps.getD []⟩,
           extract_sources (r.intermediate_steps.getD [])⟩) := by
  refine ⟨?_, ?_, ?_, ?_, ?_⟩
  · cases hr : rag₁ query (historyOpt.getD []) <;>
      simp [process_query, hr]
  · cases hstd : std₁ query (historyOpt.getD []) <;>
      simp [process_query, hstd]
  · intro r hr
    simp [process_query, hr, Except.map]
  · intro s hstd
    simp [process_query, hstd, Except.map]
  · intro r s hr hstd
    simp [process_query, hr, hstd, Except.map]

/-- C7: `ChatService.delete_chat` returns true exactly when the named session
exists, removes it so that `get_chat` then reports not-found and a repeated
deletion returns false; deleting the `ALL_CHATS` sentinel clears every session
and always returns true, even when no sessions exist. -/
theorem delete_chat_correct (hs : ChatHistories) (sid : String) :
    (sid ≠ "ALL_CHATS" →
      ((delete_chat hs sid).2 = (hlookup hs sid).isSome ∧
       get_chat (delete_chat hs sid).1 sid = none ∧
       (delete_chat (delete_chat hs sid).1 sid).2 = false)) ∧
    delete_chat hs "ALL_CHATS" = ([], true) := by
  constructor
  · intro hne
    cases h : hlookup hs sid with
    | some v =>
      simp [delete_chat, get_chat, hne, h, hlookup_herase]
    | none =>
      simp [delete_chat, get_chat, hne, h]
  · simp [delete_chat]

/-- C8: every successful `ChatService.chat` call — cache hit or miss —
appends exactly two turns to the session history: the user's text followed by
the returned augmented output as the assistant turn (so the plain output is
never appended). -/
theorem chat_success_appends_two_turns (rag std : Agent) (st : ServiceState)
    (data : Message) (rm : ResponseMessage)
    (hok : (chat rag std st data).2 = Except.ok rm) :
    ∃ out, rm.response.output = some out ∧
      hlookup (chat rag std st data).1.chat_histories data.session_id =
        some (sessionHistory st data.session_id ++
          [⟨Role.user, data.message⟩, ⟨Role.assistant, out⟩]) := by
  cases hc : cacheLookup st.cache
      (generate_query_hash data.message (sessionHistory st data.session_id)
        data.session_id) with
  | some cached =>
    rw [chat_hit_eq rag std st data cached hc] at hok ⊢
    simp only [Except.ok.injEq] at hok
    subst hok
    exact ⟨cached.rag_response, rfl,
      by simp [hlookup_hupdate_self, add_user_message, add_ai_message]⟩
  | none =>
    cases hrg : rag data.message
        (add_user_message (sessionHistory st data.session_id) data.message) with
    | error e =>
      rw [chat_miss_rag_error rag std st data e hc hrg] at hok
      simp at hok
    | ok r =>
      cases hstd : std data.message
          (add_user_message (sessionHistory st data.session_id) data.message) with
      | error e =>
        rw [chat_miss_std_error rag std st data r e hc hrg hstd] at hok
        simp at hok
      | ok s =>
        rw [chat_miss_ok rag std st data r s hc hrg hstd] at hok ⊢
        simp only [Except.ok.injEq] at hok
        subst hok
        exact ⟨r.output, rfl,
          by simp [hlookup_hupdate_self, add_user_message, add_ai_message]⟩

/-- C9: on a cache miss the sources returned by `ChatService.chat` come from
the augmented response's top-level `sources` field — each dict entry keeps its
title/url/content with empty-string defaults, each non-dict entry becomes a
content-only source from its string form — and `_format_sources` is
insensitive to the intermediate steps (any response with the same `sources`
field formats identically). -/
theorem chat_miss_sources_from_top_level (rag std : Agent) (st : ServiceState)
    (data : Message) (r s : AgentResult)
    (hmiss : cacheLookup st.cache
        (generate_query_hash data.message (sessionHistory st data.session_id)
          data.session_id) = none)
    (hr : rag data.message
        (add_user_message (sessionHistory st data.session_id) data.message) =
      Except.ok r)
    (hs : std data.message
        (add_user_message (sessionHistory st data.session_id) data.message) =
      Except.ok s) :
    ∃ rm, (chat rag std st data).2 = Except.ok rm ∧
      rm.sources = ((r.sources.getD []).map fun src =>
        match src with
        | RawSource.dict t u c =>
            (⟨some (t.getD ""), some (u.getD ""), c.getD ""⟩ : Source)
        | RawSource.prim str => ⟨none, none, str⟩) ∧
      ∀ other : AgentResult, other.sources = r.sources →
        format_sources other = format_sources r := by
  rw [chat_miss_ok rag std st data r s hmiss hr hs]
  refine ⟨_, rfl, ?_, ?_⟩
  · show format_sources r = _
    have hfs : formatSource = fun src =>
        match src with
        | RawSource.dict t u c =>
            (⟨some (t.getD ""), some (u.getD ""), c.getD ""⟩ : Source)
        | RawSource.prim str => ⟨none, none, str⟩ := by
      funext src
      cases src <;> rfl
    unfold format_sources
    rw [hfs]
  · intro other hother
    unfold format_sources
    rw [hother]

/-- C10: `ChatService.get_chat` returns the whole session map for the
`ALL_CHATS` sentinel (possibly empty), a one-entry map from the session id to
its history for an existing session, and the not-found marker `None` for an
absent non-sentinel session. -/
theorem get_chat_correct (hs : ChatHistories) (sid : String)
    (h : List ChatMessage) :
    (get_chat hs "ALL_CHATS" = some hs) ∧
    (sid ≠ "ALL_CHATS" → hlookup hs sid = some h →
      get_chat hs sid = some [(sid, h)]) ∧
    (sid ≠ "ALL_CHATS" → hlookup hs sid = none → get_chat hs sid = none) := by
  refine ⟨by simp [get_chat], ?_, ?_⟩
  · intro hne hl
    simp [get_chat, hne, hl]
  · intro hne hl
    simp [get_chat, hne, hl]

/-! ## Witnesses: each hypothesis-bearing claim theorem evaluated at a
concrete input -/

/-- C1 witness: a concrete cache hit. -/
theorem chat_hit_bypasses_generation_witness :
    cacheLookup stHit.cache
      (generate_query_hash "q" (sessionHistory stHit "s") "s") = some cachedT ∧
    chat ragT stdT stHit ⟨"q", "s"⟩ = chat ragT2 stdT2 stHit ⟨"q", "s"⟩ :=
  ⟨rfl,
   (chat_hit_bypasses_generation ragT stdT ragT2 stdT2 stHit ⟨"q", "s"⟩ cachedT
     rfl).1⟩

/-- C2 witness: a concrete cache miss stores under the pre-turn fingerprint. -/
theorem chat_miss_stores_preturn_fingerprint_witness :
    cacheLookup stMiss.cache
      (generate_query_hash "q" (sessionHistory stMiss "s") "s") = none ∧
    (chat ragT stdT stMiss ⟨"q", "s"⟩).1.cache =
      stMiss.cache ++
        [(generate_query_hash "q" (sessionHistory stMiss "s") "s",
          ⟨ragTRes.output, stdTRes.output, format_sources ragTRes⟩)] :=
  ⟨rfl,
   chat_miss_stores_preturn_fingerprint ragT stdT stMiss ⟨"q", "s"⟩ ragTRes
     stdTRes rfl rfl rfl⟩

/-- C3 witness: a concrete failing augmented generator. -/
theorem chat_failure_no_cache_witness :
    cacheLookup stMiss.cache
      (generate_query_hash "q" (sessionHistory stMiss "s") "s") = none ∧
    ((chat ragE stdT stMiss ⟨"q", "s"⟩).2 = Except.error "ragfail" ∧
     (chat ragE stdT stMiss ⟨"q", "s"⟩).1.cache = stMiss.cache ∧
     hlookup (chat ragE stdT stMiss ⟨"q", "s"⟩).1.chat_histories "s" =
       some (add_user_message (sessionHistory stMiss "s") "q")) :=
  ⟨rfl,
   chat_failure_no_cache ragE stdT stMiss ⟨"q", "s"⟩ "ragfail" rfl (Or.inl rfl)⟩

/-- C4 witness: two plain generators agreeing on the post-user-turn history
yield identical results. -/
theorem chat_generators_see_user_turn_witness :
    stdT "q" (add_user_message (sessionHistory stMiss "s") "q") =
      stdT3 "q" (add_user_message (sessionHistory stMiss "s") "q") ∧
    chat ragT stdT stMiss ⟨"q", "s"⟩ = chat ragT stdT3 stMiss ⟨"q", "s"⟩ :=
  ⟨rfl,
   chat_generators_see_user_turn ragT stdT ragT stdT3 stMiss ⟨"q", "s"⟩ rfl rfl
     rfl⟩

/-- C6 witness: augmented-only independence from the plain generator, and a
dual-mode envelope carrying both outputs. -/
theorem process_query_modes_witness :
    (process_query ragT stdT "q" none true false =
       process_query ragT stdT2 "q" none true false) ∧
    process_query ragT stdT "q" none true true =
      Except.ok ⟨⟨"q", [], some ragTRes.output, some stdTRes.output,
        ragTRes.intermediate_steps.getD []⟩,
        extract_sources (ragTRes.intermediate_steps.getD [])⟩ :=
  ⟨(process_query_modes ragT stdT ragT2 stdT2 "q" none).1,
   (process_query_modes ragT stdT ragT2 stdT2 "q" none).2.2.2.2 ragTRes stdTRes
     rfl rfl⟩

/-- C7 witness: a concrete deletion of an existing session. -/
theorem delete_chat_correct_witness :
    ("s1" : String) ≠ "ALL_CHATS" ∧
    ((delete_chat hs1 "s1").2 = (hlookup hs1 "s1").isSome ∧
     get_chat (delete_chat hs1 "s1").1 "s1" = none ∧
     (delete_chat (delete_chat hs1 "s1").1 "s1").2 = false) :=
  ⟨by decide, (delete_chat_correct hs1 "s1").1 (by decide)⟩

/-- C8 witness: a concrete successful miss appends the user turn and the
augmented output. -/
theorem chat_success_appends_two_turns_witness :
    (chat ragT stdT stMiss ⟨"q", "s"⟩).2 = Except.ok rmT ∧
    ∃ out, rmT.response.output = some out ∧
      hlookup (chat ragT stdT stMiss ⟨"q", "s"⟩).1.chat_histories "s" =
        some (sessionHistory stMiss "s" ++
          [⟨Role.user, "q"⟩, ⟨Role.assistant, out⟩]) :=
  ⟨rfl, chat_success_appends_two_turns ragT stdT stMiss ⟨"q", "s"⟩ rmT rfl⟩

/-- C9 witness: a concrete miss whose sources come from the response's
top-level `sources` field. -/
theorem chat_miss_sources_from_top_level_witness :
    cacheLookup stMiss.cache
      (generate_query_hash "q" (sessionHistory stMiss "s") "s") = none ∧
    (∃ rm, (chat ragT stdT stMiss ⟨"q", "s"⟩).2 = Except.ok rm ∧
      rm.sources = ((ragTRes.sources.getD []).map fun src =>
        match src with
        | RawSource.dict t u c =>
            (⟨some (t.getD ""), some (u.getD ""), c.getD ""⟩ : Source)
        | RawSource.prim str => ⟨none, none, str⟩) ∧
      ∀ other : AgentResult, other.sources = ragTRes.sources →
        format_sources other = format_sources ragTRes) :=
  ⟨rfl,
   chat_miss_sources_from_top_level ragT stdT stMiss ⟨"q", "s"⟩ ragTRes stdTRes
     rfl rfl rfl⟩

/-- C10 witness: lookups on a concrete one-session map. -/
theorem get_chat_correct_witness :
    hlookup hs1 "s1" = some [⟨Role.user, "hi"⟩] ∧
    (get_chat hs1 "ALL_CHATS" = some hs1 ∧
     get_chat hs1 "s1" = some [("s1", [⟨Role.user, "hi"⟩])]) :=
  ⟨rfl,
   ⟨(get_chat_correct hs1 "s1" [⟨Role.user, "hi"⟩]).1,
    (get_chat_correct hs1 "s1" [⟨Role.user, "hi"⟩]).2.1 (by decide) rfl⟩⟩

end ChatBot
